import Mathlib

/-!
Shallow embedding of the CourseScout quality-gate scripts
(`scripts/quality_gate_enforcer.py` and `scripts/test_validation_runner.py`).

Python floats are modelled as rationals (`ℚ`); Python ints as `ℤ` (or `ℕ`
where the source can only produce naturals); Python dict/JSON records as
structures.  Human-readable `message` strings reproduce the source's
concatenation shape, with Python's fixed-point float formatting (`:.2f`)
abstracted by `toString`.  Report fields that are pure rendering output
(timestamps, recommendation prose, next-step prose) are elided.
-/

/-- The `QualityThreshold` dataclass of `scripts/quality_gate_enforcer.py`. -/
structure QualityThreshold where
  name : String
  value : ℚ
  critical : Bool
  description : String
deriving DecidableEq

/-- The `QualityResult` dataclass of `scripts/quality_gate_enforcer.py`.
`severity` is one of the strings "INFO", "WARNING", "ERROR", "CRITICAL". -/
structure QualityResult where
  check_name : String
  passed : Bool
  actual_value : Option ℚ
  threshold_value : Option ℚ
  message : String
  severity : String
deriving DecidableEq

/-! The threshold registry built by `QualityGateEnforcer._initialize_thresholds`
(lines 46-166).  Each entry is a named definition plus its dict key. -/

def overall_test_coverage_t : QualityThreshold :=
  ⟨"Overall Test Coverage", 90, true, "Minimum overall test coverage percentage"⟩

def critical_path_coverage_t : QualityThreshold :=
  ⟨"Critical Path Coverage", 95, true, "Coverage for payment, booking, and security flows"⟩

def service_layer_coverage_t : QualityThreshold :=
  ⟨"Service Layer Coverage", 95, true, "Coverage for all service protocol implementations"⟩

def ui_test_coverage_t : QualityThreshold :=
  ⟨"UI Test Coverage", 80, false, "UI component test coverage"⟩

def max_test_execution_time_t : QualityThreshold :=
  ⟨"Test Execution Time", 45, true, "Maximum total test suite execution time"⟩

def max_individual_test_time_t : QualityThreshold :=
  ⟨"Individual Test Time", 30, false, "Maximum individual test execution time"⟩

def performance_regression_threshold_t : QualityThreshold :=
  ⟨"Performance Regression", 10, true, "Maximum allowed performance regression"⟩

def memory_leak_threshold_t : QualityThreshold :=
  ⟨"Memory Leaks", 0, true, "Maximum allowed memory leaks"⟩

def critical_vulnerabilities_t : QualityThreshold :=
  ⟨"Critical Vulnerabilities", 0, true, "Maximum critical security vulnerabilities"⟩

def high_vulnerabilities_t : QualityThreshold :=
  ⟨"High Vulnerabilities", 0, true, "Maximum high-severity vulnerabilities"⟩

def medium_vulnerabilities_t : QualityThreshold :=
  ⟨"Medium Vulnerabilities", 2, false, "Maximum medium-severity vulnerabilities"⟩

def security_test_coverage_t : QualityThreshold :=
  ⟨"Security Test Coverage", 95, true, "Security-specific test coverage"⟩

def test_flaky_rate_t : QualityThreshold :=
  ⟨"Test Flaky Rate", 2, true, "Maximum percentage of flaky tests"⟩

def test_failure_rate_t : QualityThreshold :=
  ⟨"Test Failure Rate", 0, true, "Maximum test failure rate for non-flaky tests"⟩

def code_quality_score_t : QualityThreshold :=
  ⟨"Code Quality Score", 95, true, "Minimum overall code quality score"⟩

def api_response_time_t : QualityThreshold :=
  ⟨"API Response Time", 200, false, "Maximum API endpoint response time"⟩

def database_query_time_t : QualityThreshold :=
  ⟨"Database Query Time", 100, false, "Maximum database query execution time"⟩

def integration_test_success_t : QualityThreshold :=
  ⟨"Integration Test Success", 100, true, "Integration test success rate"⟩

/-- The dict returned by `_initialize_thresholds`, as an association list in
source order (dict keys are unique). -/
def thresholdRegistry : List (String × QualityThreshold) :=
  [("overall_test_coverage", overall_test_coverage_t),
   ("critical_path_coverage", critical_path_coverage_t),
   ("service_layer_coverage", service_layer_coverage_t),
   ("ui_test_coverage", ui_test_coverage_t),
   ("max_test_execution_time", max_test_execution_time_t),
   ("max_individual_test_time", max_individual_test_time_t),
   ("performance_regression_threshold", performance_regression_threshold_t),
   ("memory_leak_threshold", memory_leak_threshold_t),
   ("critical_vulnerabilities", critical_vulnerabilities_t),
   ("high_vulnerabilities", high_vulnerabilities_t),
   ("medium_vulnerabilities", medium_vulnerabilities_t),
   ("security_test_coverage", security_test_coverage_t),
   ("test_flaky_rate", test_flaky_rate_t),
   ("test_failure_rate", test_failure_rate_t),
   ("code_quality_score", code_quality_score_t),
   ("api_response_time", api_response_time_t),
   ("database_query_time", database_query_time_t),
   ("integration_test_success", integration_test_success_t)]

/-- Python exceptions relevant to threshold lookup.  `keyError` models the
`KeyError` raised by a dict access `self.quality_thresholds[name]` on an
unknown key.  `configError` is the `ConfigError` the specification names for
unknown threshold names; no such exception class exists anywhere in the
source, but the constructor is needed to state the spec's claim. -/
inductive PyExc where
  | keyError (key : String)
  | configError (msg : String)
deriving DecidableEq

/-- Looking a threshold name up in the registry, i.e. the dict access
`self.quality_thresholds[name]`: the threshold when the key is present,
a `KeyError` otherwise. -/
def lookupThreshold (name : String) : Except PyExc QualityThreshold :=
  match thresholdRegistry.lookup name with
  | some t => Except.ok t
  | none => Except.error (PyExc.keyError name)

/-- Whether a lookup outcome is a `ConfigError` failure. -/
def isConfigError : Except PyExc QualityThreshold → Bool
  | Except.error (PyExc.configError _) => true
  | _ => false

/-! Coverage JSON consumed by `validate_test_coverage` (xccov report shape). -/

structure FileCoverage where
  name : String
  lineCoverage : ℚ
deriving DecidableEq

structure CoverageTarget where
  files : List FileCoverage
deriving DecidableEq

structure CoverageData where
  lineCoverage : ℚ
  targets : List CoverageTarget
deriving DecidableEq

/-- Whether `sub` is a prefix of `l`, by character. -/
def isPrefixChars : List Char → List Char → Bool
  | [], _ => true
  | _ :: _, [] => false
  | a :: as, b :: bs => a == b && isPrefixChars as bs

/-- Whether `sub` occurs somewhere in `l`. -/
def containsChars (sub : List Char) : List Char → Bool
  | [] => isPrefixChars sub []
  | c :: rest => isPrefixChars sub (c :: rest) || containsChars sub rest

/-- Python's substring test `sub in s`: `sub` occurs in `s`. -/
def pyContains (s sub : String) : Bool := containsChars sub.data s.data

/-- The hard-coded critical-path service names (lines 275-278). -/
def critical_paths : List String :=
  ["PaymentService", "BookingService", "SecurityService",
   "AuthenticationService", "APIGatewayService"]

/-- Embeds `QualityGateEnforcer.validate_test_coverage` (lines 257-329).
The nested `for target / for file_data` loops are flattened with
`flatMap`; the running sum and count over matching files become a sum and
a length over the filtered file list. -/
def validate_test_coverage (coverage_data : CoverageData) : List QualityResult :=
  let overall_coverage := coverage_data.lineCoverage * 100
  let t1 := overall_test_coverage_t
  let r1 : QualityResult :=
    { check_name := t1.name
      passed := overall_coverage ≥ t1.value
      actual_value := some overall_coverage
      threshold_value := some t1.value
      message := "Overall coverage: " ++ toString overall_coverage ++
        "% (threshold: " ++ toString t1.value ++ "%)"
      severity := if t1.critical && decide (overall_coverage < t1.value)
        then "CRITICAL" else "INFO" }
  let allFiles := coverage_data.targets.flatMap (fun t => t.files)
  let cpFiles := allFiles.filter
    (fun f => critical_paths.any (fun p => pyContains f.name p))
  let critical_path_coverage := (cpFiles.map (fun f => f.lineCoverage * 100)).sum
  let critical_files_found := cpFiles.length
  let rs2 : List QualityResult :=
    if critical_files_found > 0 then
      let avg_critical_coverage := critical_path_coverage / (critical_files_found : ℚ)
      let t2 := critical_path_coverage_t
      [{ check_name := t2.name
         passed := avg_critical_coverage ≥ t2.value
         actual_value := some avg_critical_coverage
         threshold_value := some t2.value
         message := "Critical path coverage: " ++ toString avg_critical_coverage ++
           "% (threshold: " ++ toString t2.value ++ "%)"
         severity := if t2.critical && decide (avg_critical_coverage < t2.value)
           then "CRITICAL" else "INFO" }]
    else []
  let svcFiles := allFiles.filter
    (fun f => pyContains f.name "Service.swift" && !pyContains f.name "Mock")
  let service_coverage := (svcFiles.map (fun f => f.lineCoverage * 100)).sum
  let service_files_found := svcFiles.length
  let rs3 : List QualityResult :=
    if service_files_found > 0 then
      let avg_service_coverage := service_coverage / (service_files_found : ℚ)
      let t3 := service_layer_coverage_t
      [{ check_name := t3.name
         passed := avg_service_coverage ≥ t3.value
         actual_value := some avg_service_coverage
         threshold_value := some t3.value
         message := "Service layer coverage: " ++ toString avg_service_coverage ++
           "% (threshold: " ++ toString t3.value ++ "%)"
         severity := if t3.critical && decide (avg_service_coverage < t3.value)
           then "CRITICAL" else "INFO" }]
    else []
  [r1] ++ rs2 ++ rs3

/-- One entry of the `slow_tests` list consumed by
`validate_performance_metrics`. -/
structure SlowTest where
  duration_seconds : ℚ
deriving DecidableEq

/-- The performance dict consumed by `validate_performance_metrics`
(`.get` defaults are folded into the fields). -/
structure PerformanceData where
  execution_time_minutes : ℚ
  slow_tests : List SlowTest
  memory_leaks : ℚ
deriving DecidableEq

/-- Embeds `QualityGateEnforcer.validate_performance_metrics` (lines 331-376). -/
def validate_performance_metrics (performance_data : PerformanceData) : List QualityResult :=
  let execution_time := performance_data.execution_time_minutes
  let t1 := max_test_execution_time_t
  let r1 : QualityResult :=
    { check_name := t1.name
      passed := execution_time ≤ t1.value
      actual_value := some execution_time
      threshold_value := some t1.value
      message := "Test execution time: " ++ toString execution_time ++
        " minutes (limit: " ++ toString t1.value ++ " minutes)"
      severity := if t1.critical && decide (execution_time > t1.value)
        then "CRITICAL" else "INFO" }
  let max_individual_time := max_individual_test_time_t
  let slow_test_count := (performance_data.slow_tests.filter
    (fun t => decide (t.duration_seconds > max_individual_time.value))).length
  let r2 : QualityResult :=
    { check_name := max_individual_time.name
      passed := slow_test_count == 0
      actual_value := some (slow_test_count : ℚ)
      threshold_value := some 0
      message := "Slow tests (>" ++ toString max_individual_time.value ++ "s): " ++
        toString slow_test_count
      severity := if slow_test_count > 0 then "WARNING" else "INFO" }
  let memory_leaks := performance_data.memory_leaks
  let leak_threshold := memory_leak_threshold_t
  let r3 : QualityResult :=
    { check_name := leak_threshold.name
      passed := memory_leaks ≤ leak_threshold.value
      actual_value := some memory_leaks
      threshold_value := some leak_threshold.value
      message := "Memory leaks detected: " ++ toString memory_leaks
      severity := if decide (memory_leaks > leak_threshold.value)
        then "CRITICAL" else "INFO" }
  [r1, r2, r3]

/-- The `vulnerabilities` sub-dict of the security scan data. -/
structure Vulnerabilities where
  critical : ℚ
  high : ℚ
  medium : ℚ
  low : ℚ
deriving DecidableEq

/-- The security scan dict consumed by `validate_security_compliance`. -/
structure SecurityData where
  vulnerabilities : Vulnerabilities
  test_coverage : ℚ
deriving DecidableEq

/-- Embeds `QualityGateEnforcer.validate_security_compliance` (lines 378-436). -/
def validate_security_compliance (security_data : SecurityData) : List QualityResult :=
  let vulnerabilities := security_data.vulnerabilities
  let critical_vuln := vulnerabilities.critical
  let t1 := critical_vulnerabilities_t
  let r1 : QualityResult :=
    { check_name := t1.name
      passed := critical_vuln ≤ t1.value
      actual_value := some critical_vuln
      threshold_value := some t1.value
      message := "Critical vulnerabilities: " ++ toString critical_vuln
      severity := if decide (critical_vuln > t1.value) then "CRITICAL" else "INFO" }
  let high_vuln := vulnerabilities.high
  let t2 := high_vulnerabilities_t
  let r2 : QualityResult :=
    { check_name := t2.name
      passed := high_vuln ≤ t2.value
      actual_value := some high_vuln
      threshold_value := some t2.value
      message := "High severity vulnerabilities: " ++ toString high_vuln
      severity := if decide (high_vuln > t2.value) then "CRITICAL" else "INFO" }
  let medium_vuln := vulnerabilities.medium
  let t3 := medium_vulnerabilities_t
  let r3 : QualityResult :=
    { check_name := t3.name
      passed := medium_vuln ≤ t3.value
      actual_value := some medium_vuln
      threshold_value := some t3.value
      message := "Medium severity vulnerabilities: " ++ toString medium_vuln
      severity := if decide (medium_vuln > t3.value) then "WARNING" else "INFO" }
  let security_coverage := security_data.test_coverage
  let t4 := security_test_coverage_t
  let r4 : QualityResult :=
    { check_name := t4.name
      passed := security_coverage ≥ t4.value
      actual_value := some security_coverage
      threshold_value := some t4.value
      message := "Security test coverage: " ++ toString security_coverage ++ "%"
      severity := if t4.critical && decide (security_coverage < t4.value)
        then "CRITICAL" else "INFO" }
  [r1, r2, r3, r4]

/-- The per-result weight assigned inside
`QualityGateEnforcer.calculate_overall_quality_score` (line 474):
3.0 for CRITICAL, 1.0 for WARNING, 0.5 for anything else. -/
def resultWeight (r : QualityResult) : ℚ :=
  if r.severity = "CRITICAL" then 3 else if r.severity = "WARNING" then 1 else 1/2

/-- Embeds `QualityGateEnforcer.calculate_overall_quality_score` (lines 461-480).
The accumulation loop over `self.validation_results` becomes two list sums. -/
def calculate_overall_quality_score (validation_results : List QualityResult) : ℚ :=
  if validation_results.isEmpty then 0
  else
    let total_score :=
      (validation_results.map (fun r => (if r.passed then (100 : ℚ) else 0) * resultWeight r)).sum
    let total_weight := (validation_results.map resultWeight).sum
    if total_weight > 0 then total_score / total_weight else 0

/-- The numeric core of the report built by
`QualityGateEnforcer.generate_quality_report` (lines 482-535); timing fields
and the prose sections (detailed message lists, recommendations, next steps)
are rendering output and elided. -/
structure QualityReport where
  overall_passed : Bool
  quality_score : ℚ
  total_checks : ℕ
  passed_checks : ℕ
  critical_failures : ℕ
  warnings_count : ℕ
deriving DecidableEq

/-- Embeds `QualityGateEnforcer.generate_quality_report` (lines 482-535). -/
def generate_quality_report (validation_results : List QualityResult) : QualityReport :=
  let critical_failed := validation_results.filter
    (fun r => !r.passed && r.severity == "CRITICAL")
  let warnings := validation_results.filter
    (fun r => !r.passed && r.severity == "WARNING")
  let passed := validation_results.filter (fun r => r.passed)
  { overall_passed := critical_failed.length == 0
    quality_score := calculate_overall_quality_score validation_results
    total_checks := validation_results.length
    passed_checks := passed.length
    critical_failures := critical_failed.length
    warnings_count := warnings.length }

/-! Spec-side restatement of the scorer, used for the refinement claim about
`calculate_overall_quality_score`: weight from the severity classification
(CRITICAL 3.0, WARNING 1.0, otherwise 0.5), contribution `100.0 * weight` if
passed else `0.0`, score `Σ(contribution) / Σ(weight)`, empty list `0.0`. -/

def specWeight (severity : String) : ℚ :=
  if severity = "CRITICAL" then 3 else if severity = "WARNING" then 1 else 1/2

def specContribution (r : QualityResult) : ℚ :=
  if r.passed then 100 * specWeight r.severity else 0

def spec_quality_score (results : List QualityResult) : ℚ :=
  if results = [] then 0
  else (results.map specContribution).sum / (results.map (fun r => specWeight r.severity)).sum

/-! ### `scripts/test_validation_runner.py` -/

/-- The `TestValidationResult` dataclass (lines 27-42).  Counts are Python ints. -/
structure TestValidationResult where
  test_plan : String
  success : Bool
  execution_time_seconds : ℚ
  coverage_percentage : ℚ
  test_count : ℤ
  passed_count : ℤ
  failed_count : ℤ
  skipped_count : ℤ
  memory_usage_mb : ℚ
  cpu_usage_percentage : ℚ
  errors : List String
  warnings : List String
  quality_score : ℚ
deriving DecidableEq

/-- The dict returned by `TestValidationRunner.run_xcode_test_plan`
(lines 257-306); the `errors` field models `test_result.get('errors', [])`,
defaulting to `[]` on the success-shaped dict which lacks the key. -/
structure XcodeTestResult where
  success : Bool
  stdout : String
  stderr : String
  return_code : ℤ
  errors : List String
  warnings : List String
deriving DecidableEq

/-- What happened when the external `xcodebuild` subprocess was awaited:
it completed with a return code and output, it exceeded the 1800s timeout,
or awaiting it raised some other exception. -/
inductive XcodeRunOutcome where
  | completed (returncode : ℤ) (stdout stderr : String)
  | timedOut
  | raised (msg : String)
deriving DecidableEq

/-- Embeds `TestValidationRunner.run_xcode_test_plan` (lines 257-306): converts the
subprocess outcome into a result dict, catching `asyncio.TimeoutError` and
any other exception internally. -/
def run_xcode_test_plan (outcome : XcodeRunOutcome) : XcodeTestResult :=
  match outcome with
  | XcodeRunOutcome.completed rc out err =>
    { success := rc == 0, stdout := out, stderr := err, return_code := rc,
      errors := [], warnings := [] }
  | XcodeRunOutcome.timedOut =>
    { success := false, stdout := "", stderr := "Test execution timed out",
      return_code := 1, errors := ["Test execution timeout"], warnings := [] }
  | XcodeRunOutcome.raised msg =>
    { success := false, stdout := "", stderr := msg, return_code := 1,
      errors := [msg], warnings := [] }

/-- Embeds `TestValidationRunner.extract_coverage_from_result` (lines 308-315):
a hard-coded 85.5 placeholder on success, 0.0 otherwise. -/
def extract_coverage_from_result (test_result : XcodeTestResult) : ℚ :=
  if test_result.success then 85.5 else 0

/-- Left-to-right non-overlapping occurrence scan: on a match at the current
position, skip past the matched characters (one consumed by the step itself,
`sub.length - 1` dropped).  `fuel` bounds the recursion by the scanned
length, making the definition structurally recursive. -/
def countCharsAux (sub : List Char) : ℕ → List Char → ℕ
  | 0, _ => 0
  | _, [] => 0
  | fuel + 1, c :: rest =>
    if isPrefixChars sub (c :: rest) then
      1 + countCharsAux sub fuel (rest.drop (sub.length - 1))
    else countCharsAux sub fuel rest

/-- Python's `s.count(sub)` for non-empty `sub`: the number of
non-overlapping occurrences, scanned left to right. -/
def pyCount (s sub : String) : ℕ := countCharsAux sub.data s.data.length s.data

/-- The test-count dict built by `extract_test_counts_from_result`. -/
structure TestCounts where
  total : ℤ
  passed : ℤ
  failed : ℤ
  skipped : ℤ
deriving DecidableEq

/-- Embeds `TestValidationRunner.extract_test_counts_from_result` (lines 317-333):
naive substring counting over stdout, with a zero total normalised to 1
("Avoid division by zero"). -/
def extract_test_counts_from_result (test_result : XcodeTestResult) : TestCounts :=
  let stdout := test_result.stdout
  let passed : ℤ := (pyCount stdout "Test Case \x27-[" : ℤ) + (pyCount stdout " passed" : ℤ)
  let failed : ℤ := (pyCount stdout "failed" : ℤ)
  let skipped : ℤ := (pyCount stdout "skipped" : ℤ)
  let total := passed + failed + skipped
  { total := if total > 0 then total else 1
    passed := passed
    failed := failed
    skipped := skipped }

/-- The performance dict built by `extract_performance_metrics`. -/
structure PerfMetrics where
  memory_mb : ℚ
  cpu_percent : ℚ
deriving DecidableEq

/-- Embeds `TestValidationRunner.extract_performance_metrics` (lines 335-341):
hard-coded placeholders. -/
def extract_performance_metrics : PerfMetrics :=
  { memory_mb := 125.5, cpu_percent := 35.2 }

/-- Embeds `TestValidationRunner.calculate_test_quality_score` (lines 343-369). -/
def calculate_test_quality_score (success : Bool) (coverage : ℚ)
    (test_counts : TestCounts) (performance : PerfMetrics) : ℚ :=
  if !success then 0
  else
    let score : ℚ := 50
    let coverage_score := min 30 ((coverage / 90) * 30)
    let score := score + coverage_score
    let score := if test_counts.total > 0 then
        score + ((test_counts.passed : ℚ) / (test_counts.total : ℚ)) * 15
      else score
    let memory_score := max 0 (5 - performance.memory_mb / 100)
    let score := score + min 5 memory_score
    min 100 score

/-- Embeds `TestValidationRunner.create_failed_result` (lines 371-387). -/
def create_failed_result (test_plan : String) (errors : List String) : TestValidationResult :=
  { test_plan := test_plan
    success := false
    execution_time_seconds := 0
    coverage_percentage := 0
    test_count := 0
    passed_count := 0
    failed_count := 1
    skipped_count := 0
    memory_usage_mb := 0
    cpu_usage_percentage := 0
    errors := errors
    warnings := []
    quality_score := 0 }

/-- Embeds `TestValidationRunner.execute_test_plan` (lines 173-224).  The external
effects are explicit parameters: whether `build_for_testing` succeeded, the
outcome of the `xcodebuild` test subprocess, whether some other exception was
raised inside the `try` body, and the measured wall-clock time.  The function
is total: every branch produces a `TestValidationResult`, so no exception
escapes the orchestration. -/
def execute_test_plan (test_plan : String) (build_success : Bool)
    (run_outcome : XcodeRunOutcome) (raised : Option String)
    (execution_time : ℚ) : TestValidationResult :=
  match raised with
  | some msg =>
    create_failed_result test_plan
      ["Exception during " ++ test_plan ++ " execution: " ++ msg]
  | none =>
    if !build_success then
      create_failed_result test_plan ["Build failed for " ++ test_plan]
    else
      let test_result := run_xcode_test_plan run_outcome
      let coverage := extract_coverage_from_result test_result
      let test_counts := extract_test_counts_from_result test_result
      let performance_metrics := extract_performance_metrics
      let quality_score :=
        calculate_test_quality_score test_result.success coverage test_counts performance_metrics
      { test_plan := test_plan
        success := test_result.success
        execution_time_seconds := execution_time
        coverage_percentage := coverage
        test_count := test_counts.total
        passed_count := test_counts.passed
        failed_count := test_counts.failed
        skipped_count := test_counts.skipped
        memory_usage_mb := performance_metrics.memory_mb
        cpu_usage_percentage := performance_metrics.cpu_percent
        errors := test_result.errors
        warnings := test_result.warnings
        quality_score := quality_score }

/-- The outcome `asyncio.gather(*tasks, return_exceptions=True)` records for
one task: the awaited `TestValidationResult`, or the exception the task
raised (carried as its message string). -/
inductive ExecOutcome where
  | ok (r : TestValidationResult)
  | exc (msg : String)
deriving DecidableEq

/-- The synthesized failure `run_test_plans_parallel` appends when `gather`
hands back an exception for a plan (lines 145-161): every numeric field zero,
the exception recorded in `errors`. -/
def gather_exception_result (test_plan msg : String) : TestValidationResult :=
  { test_plan := test_plan
    success := false
    execution_time_seconds := 0
    coverage_percentage := 0
    test_count := 0
    passed_count := 0
    failed_count := 0
    skipped_count := 0
    memory_usage_mb := 0
    cpu_usage_percentage := 0
    errors := [msg]
    warnings := []
    quality_score := 0 }

/-- Semantics of `asyncio.gather`: the tasks settle in an arbitrary completion
order (`completed` lists each settled task as an index/outcome pair, in
completion order), and `gather` delivers the outcomes re-sorted into task
index order. -/
def asyncio_gather {β : Type} (completed : List (ℕ × β)) : List β :=
  (completed.mergeSort (fun a b => a.1 ≤ b.1)).map Prod.snd

/-- Embeds `TestValidationRunner.run_test_plans_parallel` (lines 130-163): one task
per plan in `test_plans` order, gathered with `return_exceptions=True`, then
the `for i, result in enumerate(results)` loop appends either the real result
or a synthesized failure, positionally paired with `self.test_plans[i]`.
`completed` is the settled task list in completion order; theorems constrain
it to be a permutation of the enumerated per-plan outcomes. -/
def run_test_plans_parallel (test_plans : List String)
    (completed : List (ℕ × ExecOutcome)) : List TestValidationResult :=
  let results := asyncio_gather completed
  (test_plans.zip results).map (fun pr =>
    match pr.2 with
    | ExecOutcome.ok r => r
    | ExecOutcome.exc e => gather_exception_result pr.1 e)

/-- Embeds `TestValidationRunner.run_test_plans_sequential` (lines 165-171): the
plans are executed one after another in request order.  In the sequential
path `execute_test_plan` never raises, so each step yields a result. -/
def run_test_plans_sequential (test_plans : List String)
    (execute : String → TestValidationResult) : List TestValidationResult :=
  test_plans.map execute

/-- The numeric core of the `ValidationReport` dataclass (lines 44-60);
recommendation/next-step prose and the timestamp are rendering output and
elided.  `quality_gate_results` holds the quality-gate report the runner
loaded from the enforcer (lines 414-416). -/
structure ValidationReport where
  overall_success : Bool
  total_execution_time : ℚ
  total_tests : ℤ
  total_passed : ℤ
  total_failed : ℤ
  overall_coverage : ℚ
  overall_quality_score : ℚ
  test_plan_results : List TestValidationResult
  quality_gate_results : QualityReport
deriving DecidableEq

/-- Embeds `TestValidationRunner.generate_validation_report` (lines 440-486).
`total_execution_time` is wall-clock time, passed in explicitly. -/
def generate_validation_report (total_execution_time : ℚ)
    (test_results : List TestValidationResult)
    (quality_gate_results : QualityReport) : ValidationReport :=
  let overall_success := test_results.all (fun r => r.success)
  let total_tests := (test_results.map (fun r => r.test_count)).sum
  let total_passed := (test_results.map (fun r => r.passed_count)).sum
  let total_failed := (test_results.map (fun r => r.failed_count)).sum
  let overall_coverage :=
    if !test_results.isEmpty then
      (test_results.map (fun r => r.coverage_percentage * (r.test_count : ℚ))).sum /
        ((max 1 total_tests : ℤ) : ℚ)
    else 0
  let overall_quality_score :=
    if !test_results.isEmpty then
      (test_results.map (fun r => r.quality_score)).sum / (test_results.length : ℚ)
    else 0
  { overall_success := overall_success
    total_execution_time := total_execution_time
    total_tests := total_tests
    total_passed := total_passed
    total_failed := total_failed
    overall_coverage := overall_coverage
    overall_quality_score := overall_quality_score
    test_plan_results := test_results
    quality_gate_results := quality_gate_results }

/-! ### Helper lemmas -/

/-- Collecting a completion-order permutation of index-tagged outcomes back
into index order recovers the original enumeration, when the original
indices are exactly `0, …, n-1` in order. -/
theorem mergeSort_of_perm_of_index {β : Type} {n : ℕ} {m completed : List (ℕ × β)}
    (hperm : completed.Perm m) (hidx : m.map Prod.fst = List.range n) :
    completed.mergeSort (fun a b => a.1 ≤ b.1) = m := by
  have htrans : ∀ (a b c : ℕ × β),
      (fun x y : ℕ × β => decide (x.1 ≤ y.1)) a b →
      (fun x y : ℕ × β => decide (x.1 ≤ y.1)) b c →
      (fun x y : ℕ × β => decide (x.1 ≤ y.1)) a c := by
    intro a b c hab hbc
    simp only [decide_eq_true_eq] at *
    omega
  have htotal : ∀ (a b : ℕ × β),
      ((fun x y : ℕ × β => decide (x.1 ≤ y.1)) a b ||
       (fun x y : ℕ × β => decide (x.1 ≤ y.1)) b a) := by
    intro a b
    simp only [Bool.or_eq_true, decide_eq_true_eq]
    omega
  set s := completed.mergeSort (fun a b => a.1 ≤ b.1) with hs
  have hsperm : s.Perm m := (completed.mergeSort_perm _).trans hperm
  have hsorted : s.Pairwise (fun a b : ℕ × β => a.1 ≤ b.1) := by
    have := List.sorted_mergeSort htrans htotal completed
    exact this.imp (fun h => by simpa using h)
  have hnodupfst : (s.map Prod.fst).Nodup := by
    have hm : (m.map Prod.fst).Nodup := by rw [hidx]; exact List.nodup_range n
    exact ((hsperm.map Prod.fst).nodup_iff).2 hm
  have hne : s.Pairwise (fun a b : ℕ × β => a.1 ≠ b.1) := List.pairwise_map.1 hnodupfst
  have hslt : s.Pairwise (fun a b : ℕ × β => a.1 < b.1) :=
    (hsorted.and hne).imp (fun h => lt_of_le_of_ne h.1 h.2)
  have hmlt : m.Pairwise (fun a b : ℕ × β => a.1 < b.1) := by
    have : (m.map Prod.fst).Pairwise (· < ·) := by
      rw [hidx]; exact List.pairwise_lt_range n
    exact List.pairwise_map.1 this
  haveI : IsAntisymm (ℕ × β) (fun a b : ℕ × β => a.1 < b.1) :=
    ⟨fun a b h1 h2 => (Nat.lt_asymm h1 h2).elim⟩
  exact List.eq_of_perm_of_sorted hsperm hslt hmlt

/-- Theorem: `asyncio.gather` delivers one outcome per task in task order: collecting
any completion-order permutation of the enumerated outcome list `l.enum`
yields `l` itself. -/
theorem asyncio_gather_enum {β : Type} {l : List β} {completed : List (ℕ × β)}
    (h : completed.Perm l.enum) : asyncio_gather completed = l := by
  unfold asyncio_gather
  rw [mergeSort_of_perm_of_index h (List.enum_map_fst l)]
  exact List.enum_map_snd l

/-- Zipping a list with its own image under `f`. -/
theorem zip_self_map {α β : Type} (f : α → β) :
    ∀ l : List α, l.zip (l.map f) = l.map (fun a => (a, f a))
  | [] => rfl
  | a :: l => by simp [zip_self_map f l]

/-- Each per-result weight is strictly positive. -/
theorem resultWeight_pos (r : QualityResult) : 0 < resultWeight r := by
  unfold resultWeight
  split_ifs <;> norm_num

/-- The total weight of a non-empty result list is strictly positive. -/
theorem total_weight_pos {rs : List QualityResult} (h : rs ≠ []) :
    0 < (rs.map resultWeight).sum := by
  cases rs with
  | nil => exact absurd rfl h
  | cons a tl =>
    have h1 : 0 ≤ (tl.map resultWeight).sum := by
      apply List.sum_nonneg
      intro x hx
      obtain ⟨r, _, rfl⟩ := List.mem_map.1 hx
      exact le_of_lt (resultWeight_pos r)
    have h2 : 0 < resultWeight a := resultWeight_pos a
    simp only [List.map_cons, List.sum_cons]
    linarith

/-! ### Claims -/

/-- C1: the overall pass/fail verdict computed by `generate_quality_report`
is true exactly when the result list contains no result with severity
CRITICAL and `passed = false`; in particular a list containing only
WARNING-severity results (failing or not) still yields an overall pass. -/
theorem claim_C1_overall_verdict (rs : List QualityResult) :
    ((generate_quality_report rs).overall_passed = true ↔
      ∀ r ∈ rs, ¬(r.severity = "CRITICAL" ∧ r.passed = false)) ∧
    ((∀ r ∈ rs, r.severity = "WARNING") →
      (generate_quality_report rs).overall_passed = true) := by
  have hiff : (generate_quality_report rs).overall_passed = true ↔
      ∀ r ∈ rs, ¬(r.severity = "CRITICAL" ∧ r.passed = false) := by
    simp only [generate_quality_report, beq_iff_eq, List.length_eq_zero,
      List.filter_eq_nil_iff, Bool.and_eq_true, Bool.not_eq_true', beq_iff_eq,
      not_and]
    constructor
    · intro h r hr hsev hpass
      exact absurd hsev (h r hr hpass)
    · intro h r hr hpass hsev
      exact h r hr hsev hpass
  refine ⟨hiff, fun hall => hiff.2 ?_⟩
  intro r hr ⟨hsev, _⟩
  rw [hall r hr] at hsev
  exact absurd hsev (by decide)

/-- A concrete failing WARNING-severity result. -/
def warnResult : QualityResult :=
  { check_name := "Individual Test Time"
    passed := false
    actual_value := some 3
    threshold_value := some 0
    message := "Slow tests (>30s): 3"
    severity := "WARNING" }

/-- Witness for C1: a list holding only a failing WARNING result is still an
overall pass. -/
theorem claim_C1_witness :
    (∀ r ∈ [warnResult], r.severity = "WARNING") ∧
    (generate_quality_report [warnResult]).overall_passed = true := by
  have h : ∀ r ∈ [warnResult], r.severity = "WARNING" := by
    intro r hr
    simp only [List.mem_singleton] at hr
    rw [hr]
    rfl
  exact ⟨h, (claim_C1_overall_verdict [warnResult]).2 h⟩

/-- C2: `calculate_overall_quality_score` computes exactly the spec's
severity-weighted formula — weight 3.0 for CRITICAL, 1.0 for WARNING,
0.5 otherwise, contribution `100.0 * weight` when passed and `0.0`
otherwise, score `Σ(contribution) / Σ(weight)` — and returns exactly `0.0`
on the empty list. -/
theorem claim_C2_score_formula (rs : List QualityResult) :
    calculate_overall_quality_score rs = spec_quality_score rs := by
  unfold calculate_overall_quality_score spec_quality_score
  by_cases h : rs = []
  · simp [h]
  · have hpos : 0 < (rs.map resultWeight).sum := total_weight_pos h
    simp only [List.isEmpty_iff, h, if_neg, if_pos hpos, ite_false]
    congr 1
    congr 1
    apply List.map_congr_left
    intro r _
    unfold specContribution resultWeight specWeight
    by_cases hp : r.passed <;> simp [hp]

/-- C3: for any requested plan list run concurrently, the orchestrator
returns exactly one result per requested plan, in request order, for ANY
completion-order permutation of the per-plan outcomes; a plan whose
execution raised an exception contributes a synthesized failed result at
its own position while every other plan's result is unchanged. -/
theorem claim_C3_parallel_one_result_per_plan (test_plans : List String)
    (run_single_test_plan : String → ExecOutcome)
    (completed : List (ℕ × ExecOutcome))
    (h : completed.Perm ((test_plans.map run_single_test_plan).enum)) :
    (run_test_plans_parallel test_plans completed).length = test_plans.length ∧
    run_test_plans_parallel test_plans completed =
      test_plans.map (fun p =>
        match run_single_test_plan p with
        | ExecOutcome.ok r => r
        | ExecOutcome.exc e => gather_exception_result p e) := by
  have hmain : run_test_plans_parallel test_plans completed =
      test_plans.map (fun p =>
        match run_single_test_plan p with
        | ExecOutcome.ok r => r
        | ExecOutcome.exc e => gather_exception_result p e) := by
    unfold run_test_plans_parallel
    rw [asyncio_gather_enum h]
    simp only [zip_self_map, List.map_map]
    rfl
  refine ⟨?_, hmain⟩
  rw [hmain, List.length_map]

/-- A successful placeholder outcome for the C3 witness. -/
def c3OkResult (p : String) : TestValidationResult :=
  { test_plan := p
    success := true
    execution_time_seconds := 12
    coverage_percentage := 85.5
    test_count := 10
    passed_count := 10
    failed_count := 0
    skipped_count := 0
    memory_usage_mb := 125.5
    cpu_usage_percentage := 35.2
    errors := []
    warnings := []
    quality_score := 100 }

/-- The four test plans the runner requests (lines 72-77). -/
def c3Plans : List String :=
  ["UnitTestPlan", "IntegrationTestPlan", "PerformanceTestPlan", "SecurityTestPlan"]

/-- Per-plan outcomes for the C3 witness: the performance plan throws. -/
def c3Outcome (p : String) : ExecOutcome :=
  if p = "PerformanceTestPlan" then ExecOutcome.exc "simulator crashed"
  else ExecOutcome.ok (c3OkResult p)

/-- Witness for C3: four requested plans with one throwing, settling in
reversed completion order, still yield four results in request order, the
throwing plan replaced by a synthesized failure. -/
theorem claim_C3_witness :
    run_test_plans_parallel c3Plans ((c3Plans.map c3Outcome).enum).reverse =
      [c3OkResult "UnitTestPlan", c3OkResult "IntegrationTestPlan",
       gather_exception_result "PerformanceTestPlan" "simulator crashed",
       c3OkResult "SecurityTestPlan"] ∧
    (run_test_plans_parallel c3Plans ((c3Plans.map c3Outcome).enum).reverse).length = 4 := by
  have h := claim_C3_parallel_one_result_per_plan c3Plans c3Outcome
    ((c3Plans.map c3Outcome).enum).reverse ((c3Plans.map c3Outcome).enum).reverse_perm
  refine ⟨h.2.trans ?_, h.1⟩
  rfl

/-- A fully successful plan result used in counterexamples and witnesses. -/
def okPlan : TestValidationResult :=
  { test_plan := "UnitTestPlan"
    success := true
    execution_time_seconds := 30
    coverage_percentage := 85.5
    test_count := 10
    passed_count := 10
    failed_count := 0
    skipped_count := 0
    memory_usage_mb := 125.5
    cpu_usage_percentage := 35.2
    errors := []
    warnings := []
    quality_score := 100 }

/-- A quality-gate report carrying one CRITICAL gate failure. -/
def gateFailReport : QualityReport :=
  { overall_passed := false
    quality_score := 25
    total_checks := 4
    passed_checks := 3
    critical_failures := 1
    warnings_count := 0 }

/-- A quality-gate report with no failures at all. -/
def gateOkReport : QualityReport :=
  { overall_passed := true
    quality_score := 100
    total_checks := 4
    passed_checks := 4
    critical_failures := 0
    warnings_count := 0 }

/-- Counterexample to C5: with a single fully successful plan and a gate
report recording one CRITICAL gate failure, `generate_validation_report`
still sets `overall_success = true`, while the claim demands `false`
(all-plans-success AND zero critical gate failures). -/
theorem claim_C5_counterexample :
    okPlan.success = true ∧
    (generate_validation_report 30 [okPlan] gateFailReport).quality_gate_results.critical_failures = 1 ∧
    (generate_validation_report 30 [okPlan] gateFailReport).overall_success = true := by
  exact ⟨rfl, rfl, rfl⟩

/-- C5 amended: `generate_validation_report` computes `overall_success` as
the AND of the per-plan `success` flags alone; the quality-gate results are
stored in the report verbatim but never consulted for the verdict. -/
theorem claim_C5_amended (total_execution_time : ℚ)
    (test_results : List TestValidationResult) (g g' : QualityReport) :
    (generate_validation_report total_execution_time test_results g).overall_success =
      test_results.all (fun r => r.success) ∧
    (generate_validation_report total_execution_time test_results g).overall_success =
      (generate_validation_report total_execution_time test_results g').overall_success := by
  exact ⟨rfl, rfl⟩

/-- Counterexample to C6: a build failure synthesizes a result via
`create_failed_result`, whose `failed_count` is 1, not 0 — so not all test
counts of the synthesized result are zero. -/
theorem claim_C6_counterexample :
    execute_test_plan "UnitTestPlan" false (XcodeRunOutcome.completed 0 "" "") none 0 =
      create_failed_result "UnitTestPlan" ["Build failed for UnitTestPlan"] ∧
    (create_failed_result "UnitTestPlan" ["Build failed for UnitTestPlan"]).failed_count = 1 := by
  exact ⟨rfl, rfl⟩

/-- C6 amended: `execute_test_plan` is total (no exception escapes the
orchestration) and synthesizes failure records as follows.  On an executor
exception or a build failure it returns `create_failed_result`: success
false, `test_count`/`passed_count`/`skipped_count` zero but `failed_count`
one, with the error message recorded.  On a timeout the error message
"Test execution timeout" is recorded on a failed result whose counts come
from parsing empty output: zero passed/failed/skipped with the zero total
normalised to 1. -/
theorem claim_C6_amended (test_plan msg : String) (build_success : Bool)
    (run_outcome : XcodeRunOutcome) (execution_time : ℚ) :
    (execute_test_plan test_plan build_success run_outcome (some msg) execution_time =
      create_failed_result test_plan
        ["Exception during " ++ test_plan ++ " execution: " ++ msg]) ∧
    (execute_test_plan test_plan false run_outcome none execution_time =
      create_failed_result test_plan ["Build failed for " ++ test_plan]) ∧
    (∀ errs : List String,
      (create_failed_result test_plan errs).success = false ∧
      (create_failed_result test_plan errs).test_count = 0 ∧
      (create_failed_result test_plan errs).passed_count = 0 ∧
      (create_failed_result test_plan errs).skipped_count = 0 ∧
      (create_failed_result test_plan errs).failed_count = 1 ∧
      (create_failed_result test_plan errs).errors = errs) ∧
    ((execute_test_plan test_plan true XcodeRunOutcome.timedOut none execution_time).success = false ∧
     (execute_test_plan test_plan true XcodeRunOutcome.timedOut none execution_time).errors =
       ["Test execution timeout"] ∧
     (execute_test_plan test_plan true XcodeRunOutcome.timedOut none execution_time).passed_count = 0 ∧
     (execute_test_plan test_plan true XcodeRunOutcome.timedOut none execution_time).failed_count = 0 ∧
     (execute_test_plan test_plan true XcodeRunOutcome.timedOut none execution_time).skipped_count = 0 ∧
     (execute_test_plan test_plan true XcodeRunOutcome.timedOut none execution_time).test_count = 1 ∧
     (execute_test_plan test_plan true XcodeRunOutcome.timedOut none execution_time).quality_score = 0) := by
  refine ⟨rfl, rfl, fun errs => ⟨rfl, rfl, rfl, rfl, rfl, rfl⟩, ?_⟩
  exact ⟨rfl, rfl, rfl, rfl, rfl, rfl, rfl⟩

/-- A list of nonnegative integers summing to zero is all zero. -/
theorem sum_eq_zero_all_zero : ∀ {l : List ℤ}, (∀ x ∈ l, 0 ≤ x) → l.sum = 0 →
    ∀ x ∈ l, x = 0
  | [], _, _, x, hx => absurd hx (List.not_mem_nil x)
  | a :: tl, hnn, hsum, x, hx => by
    have hta : 0 ≤ a := hnn a (List.mem_cons_self a tl)
    have htl : 0 ≤ tl.sum := List.sum_nonneg (fun y hy => hnn y (List.mem_cons_of_mem a hy))
    rw [List.sum_cons] at hsum
    have ha : a = 0 := by linarith
    have hts : tl.sum = 0 := by linarith
    rcases List.mem_cons.1 hx with rfl | hx
    · exact ha
    · exact sum_eq_zero_all_zero (fun y hy => hnn y (List.mem_cons_of_mem a hy)) hts x hx

/-- C7: the report's `overall_coverage` is the test-count-weighted average
of the per-plan coverages, and it is exactly 0 whenever the total test count
is zero (which covers the empty plan list) — the computation is total, so no
division fault can occur. -/
theorem claim_C7_weighted_coverage (total_execution_time : ℚ)
    (test_results : List TestValidationResult) (g : QualityReport)
    (hnn : ∀ r ∈ test_results, 0 ≤ r.test_count) :
    ((test_results.map (fun r => r.test_count)).sum = 0 →
      (generate_validation_report total_execution_time test_results g).overall_coverage = 0) ∧
    (0 < (test_results.map (fun r => r.test_count)).sum →
      (generate_validation_report total_execution_time test_results g).overall_coverage =
        (test_results.map (fun r => r.coverage_percentage * (r.test_count : ℚ))).sum /
          (((test_results.map (fun r => r.test_count)).sum : ℤ) : ℚ)) := by
  constructor
  · intro hzero
    show (if !test_results.isEmpty then _ else (0 : ℚ)) = 0
    cases heq : test_results.isEmpty with
    | true => simp
    | false =>
      simp only [Bool.not_false, if_pos]
      have hall : ∀ x ∈ test_results.map (fun r => r.test_count), x = 0 := by
        apply sum_eq_zero_all_zero _ hzero
        intro x hx
        obtain ⟨r, hr, rfl⟩ := List.mem_map.1 hx
        exact hnn r hr
      have hnum : (test_results.map (fun r => r.coverage_percentage * (r.test_count : ℚ))).sum = 0 := by
        apply List.sum_eq_zero
        intro x hx
        obtain ⟨r, hr, rfl⟩ := List.mem_map.1 hx
        have : r.test_count = 0 := hall r.test_count (List.mem_map_of_mem _ hr)
        rw [this]
        simp
      rw [hnum, hzero]
      simp
  · intro hpos
    show (if !test_results.isEmpty then _ else (0 : ℚ)) = _
    have hne : test_results.isEmpty = false := by
      cases heq : test_results with
      | nil => rw [heq] at hpos; simp at hpos
      | cons a tl => simp
    rw [hne]
    simp only [Bool.not_false, if_pos]
    have hmax : max 1 ((test_results.map (fun r => r.test_count)).sum) =
        (test_results.map (fun r => r.test_count)).sum := by
      exact max_eq_right hpos
    rw [hmax]

/-- Witness for C7: one plan with 10 tests at 85.5% coverage; the total is
positive and the weighted average is the source formula's value. -/
theorem claim_C7_witness :
    (∀ r ∈ [okPlan], 0 ≤ r.test_count) ∧
    0 < (([okPlan].map (fun r => r.test_count)).sum) ∧
    (generate_validation_report 30 [okPlan] gateOkReport).overall_coverage =
      ([okPlan].map (fun r => r.coverage_percentage * (r.test_count : ℚ))).sum /
        ((([okPlan].map (fun r => r.test_count)).sum : ℤ) : ℚ) := by
  have hnn : ∀ r ∈ [okPlan], 0 ≤ r.test_count := by decide
  have hpos : 0 < (([okPlan].map (fun r => r.test_count)).sum) := by decide
  exact ⟨hnn, hpos, (claim_C7_weighted_coverage 30 [okPlan] gateOkReport hnn).2 hpos⟩

/-- A plan result with quality score 100 and `success = true`. -/
def hundredPlan (p : String) : TestValidationResult :=
  { test_plan := p
    success := true
    execution_time_seconds := 20
    coverage_percentage := 85.5
    test_count := 5
    passed_count := 5
    failed_count := 0
    skipped_count := 0
    memory_usage_mb := 125.5
    cpu_usage_percentage := 35.2
    errors := []
    warnings := []
    quality_score := 100 }

/-- A plan result with quality score 0 and `success = false`. -/
def zeroPlan : TestValidationResult :=
  { test_plan := "SecurityTestPlan"
    success := false
    execution_time_seconds := 0
    coverage_percentage := 0
    test_count := 0
    passed_count := 0
    failed_count := 1
    skipped_count := 0
    memory_usage_mb := 0
    cpu_usage_percentage := 0
    errors := ["Build failed for SecurityTestPlan"]
    warnings := []
    quality_score := 0 }

/-- C8: for non-empty plan lists the report's `overall_quality_score` is the
unweighted arithmetic mean of the per-plan quality scores; in particular
three plans at 100 (successful) plus one at 0 (failed) yield exactly 75.0
with `overall_success = false`. -/
theorem claim_C8_mean_quality_score :
    (∀ (total_execution_time : ℚ) (test_results : List TestValidationResult)
      (g : QualityReport), test_results ≠ [] →
      (generate_validation_report total_execution_time test_results g).overall_quality_score =
        (test_results.map (fun r => r.quality_score)).sum / (test_results.length : ℚ)) ∧
    (generate_validation_report 60
      [hundredPlan "UnitTestPlan", hundredPlan "IntegrationTestPlan",
       hundredPlan "PerformanceTestPlan", zeroPlan] gateOkReport).overall_quality_score = 75 ∧
    (generate_validation_report 60
      [hundredPlan "UnitTestPlan", hundredPlan "IntegrationTestPlan",
       hundredPlan "PerformanceTestPlan", zeroPlan] gateOkReport).overall_success = false := by
  refine ⟨?_, by norm_num [generate_validation_report, hundredPlan, zeroPlan], by decide⟩
  intro t rs g hne
  show (if !rs.isEmpty then _ else (0 : ℚ)) = _
  have : rs.isEmpty = false := by
    cases rs with
    | nil => exact absurd rfl hne
    | cons a tl => simp
  rw [this]
  simp

/-- Witness for C8: the mean formula applied to a concrete singleton list. -/
theorem claim_C8_witness :
    (generate_validation_report 0 [zeroPlan] gateOkReport).overall_quality_score =
      ([zeroPlan].map (fun r => r.quality_score)).sum / (([zeroPlan].length : ℕ) : ℚ) :=
  claim_C8_mean_quality_score.1 0 [zeroPlan] gateOkReport (by simp)

/-- Counterexample to C9: looking up a name absent from the registry fails
with a `KeyError` carrying the key — not with the `ConfigError` the claim
names (no `ConfigError` exists in the code). -/
theorem claim_C9_counterexample :
    lookupThreshold "nonexistent_threshold" =
      Except.error (PyExc.keyError "nonexistent_threshold") ∧
    isConfigError (lookupThreshold "nonexistent_threshold") = false := by
  exact ⟨rfl, rfl⟩

/-- C9 amended: looking up a name present in the registry returns its
threshold; looking up an absent name fails with `KeyError` (raised only at
the offending dict access, not ahead of any plan run).  The third conjunct
checks a concrete registry entry. -/
theorem claim_C9_amended :
    (∀ n t, thresholdRegistry.lookup n = some t → lookupThreshold n = Except.ok t) ∧
    (∀ n, thresholdRegistry.lookup n = none →
      lookupThreshold n = Except.error (PyExc.keyError n)) ∧
    lookupThreshold "overall_test_coverage" = Except.ok overall_test_coverage_t := by
  refine ⟨fun n t h => ?_, fun n h => ?_, rfl⟩ <;> simp [lookupThreshold, h]

/-- Witness for C9: a concrete known name resolves to its threshold. -/
theorem claim_C9_witness :
    thresholdRegistry.lookup "memory_leak_threshold" = some memory_leak_threshold_t ∧
    lookupThreshold "memory_leak_threshold" = Except.ok memory_leak_threshold_t :=
  ⟨rfl, claim_C9_amended.1 "memory_leak_threshold" memory_leak_threshold_t rfl⟩

/-- C10: with nonnegative coverage, counts and memory metric,
`calculate_test_quality_score` returns exactly 0 when `success` is false,
lies in `[50, 100]` when `success` is true, and hence is never strictly
between 0 and 50. -/
theorem claim_C10_score_gap (success : Bool) (coverage : ℚ)
    (test_counts : TestCounts) (performance : PerfMetrics)
    (hcov : 0 ≤ coverage) (hpassed : 0 ≤ test_counts.passed)
    (htotal : 0 ≤ test_counts.total) (hmem : 0 ≤ performance.memory_mb) :
    (success = false →
      calculate_test_quality_score success coverage test_counts performance = 0) ∧
    (success = true →
      50 ≤ calculate_test_quality_score success coverage test_counts performance ∧
      calculate_test_quality_score success coverage test_counts performance ≤ 100) ∧
    (calculate_test_quality_score success coverage test_counts performance = 0 ∨
      50 ≤ calculate_test_quality_score success coverage test_counts performance) := by
  cases success with
  | false =>
    refine ⟨fun _ => rfl, fun h => absurd h (by decide), Or.inl rfl⟩
  | true =>
    have hbounds : 50 ≤ calculate_test_quality_score true coverage test_counts performance ∧
        calculate_test_quality_score true coverage test_counts performance ≤ 100 := by
      unfold calculate_test_quality_score
      simp only [Bool.not_true, Bool.false_eq_true, if_false]
      have hcs : 0 ≤ min 30 ((coverage / 90) * 30) := by
        apply le_min
        · norm_num
        · positivity
      have hms : 0 ≤ min 5 (max 0 (5 - performance.memory_mb / 100)) := by
        apply le_min
        · norm_num
        · exact le_max_left 0 _
      split_ifs with ht
      · have hrate : 0 ≤ ((test_counts.passed : ℚ) / (test_counts.total : ℚ)) * 15 := by
          have h1 : (0 : ℚ) ≤ (test_counts.passed : ℚ) := by exact_mod_cast hpassed
          have h2 : (0 : ℚ) ≤ (test_counts.total : ℚ) := by exact_mod_cast htotal
          positivity
        constructor
        · apply le_min
          · norm_num
          · linarith
        · exact min_le_left _ _
      · constructor
        · apply le_min
          · norm_num
          · linarith
        · exact min_le_left _ _
    exact ⟨fun h => absurd h (by decide), fun _ => hbounds, Or.inr hbounds.1⟩

/-- Witness for C10: a successful run with 90% coverage, 9 of 10 tests
passing, and the placeholder performance metrics scores within `[50, 100]`. -/
theorem claim_C10_witness :
    50 ≤ calculate_test_quality_score true 90 ⟨10, 9, 1, 0⟩ ⟨125.5, 35.2⟩ ∧
    calculate_test_quality_score true 90 ⟨10, 9, 1, 0⟩ ⟨125.5, 35.2⟩ ≤ 100 :=
  (claim_C10_score_gap true 90 ⟨10, 9, 1, 0⟩ ⟨125.5, 35.2⟩ (by norm_num) (by norm_num)
    (by norm_num) (by norm_num)).2.1 rfl

/-- The registry threshold whose display name is `n` (check names are
pairwise distinct, so this identifies the underlying threshold of a
`QualityResult` via its `check_name`). -/
def thresholdByCheckName (n : String) : Option QualityThreshold :=
  (thresholdRegistry.map Prod.snd).find? (fun t => t.name == n)

/-- The claimed severity discipline: CRITICAL exactly for a failed check of
a critical threshold, WARNING exactly for a failed check of a non-critical
threshold, INFO in every other case. -/
def SeverityDerived (critical : Bool) (r : QualityResult) : Prop :=
  r.severity = (if critical && !r.passed then "CRITICAL"
    else if !critical && !r.passed then "WARNING" else "INFO")

/-- Severity shape of an at-least check against a critical threshold. -/
theorem sevDerived_ge_crit (nm msg : String) (x v : ℚ) (a tv : Option ℚ) :
    SeverityDerived true
      { check_name := nm, passed := x ≥ v, actual_value := a,
        threshold_value := tv, message := msg,
        severity := if true && decide (x < v) then "CRITICAL" else "INFO" } := by
  unfold SeverityDerived
  by_cases h : x < v
  · simp [h, not_le.2 h]
  · simp [h, not_lt.1 h]

/-- Severity shape of an at-most check against a critical threshold. -/
theorem sevDerived_le_crit (nm msg : String) (x v : ℚ) (a tv : Option ℚ) :
    SeverityDerived true
      { check_name := nm, passed := x ≤ v, actual_value := a,
        threshold_value := tv, message := msg,
        severity := if decide (x > v) then "CRITICAL" else "INFO" } := by
  unfold SeverityDerived
  by_cases h : v < x
  · simp [h, not_le.2 h]
  · simp [h, not_lt.1 h]

/-- Severity shape of an at-most check against a non-critical threshold. -/
theorem sevDerived_le_warn (nm msg : String) (x v : ℚ) (a tv : Option ℚ) :
    SeverityDerived false
      { check_name := nm, passed := x ≤ v, actual_value := a,
        threshold_value := tv, message := msg,
        severity := if decide (x > v) then "WARNING" else "INFO" } := by
  unfold SeverityDerived
  by_cases h : v < x
  · simp [h, not_le.2 h]
  · simp [h, not_lt.1 h]

/-- Severity shape of the slow-test count check (non-critical threshold). -/
theorem sevDerived_count_warn (nm msg : String) (c : ℕ) (a tv : Option ℚ) :
    SeverityDerived false
      { check_name := nm, passed := c == 0, actual_value := a,
        threshold_value := tv, message := msg,
        severity := if c > 0 then "WARNING" else "INFO" } := by
  unfold SeverityDerived
  by_cases h : c = 0
  · simp [h]
  · simp [h, Nat.pos_of_ne_zero h]

/-- Membership in a conditionally-emitted singleton. -/
theorem mem_ite_singleton {α : Type} {r x : α} {c : Prop} [Decidable c] :
    r ∈ (if c then [x] else ([] : List α)) ↔ c ∧ r = x := by
  split_ifs with h <;> simp [h]

/-- C4: every `QualityResult` produced by the coverage, performance and
security validators carries the severity derived from its underlying
threshold's criticality and the check outcome: CRITICAL exactly when the
threshold is critical and the check failed, WARNING exactly when the
threshold is non-critical and the check failed, INFO otherwise. -/
theorem claim_C4_severity_invariant (d : CoverageData) (p : PerformanceData)
    (s : SecurityData) :
    ∀ r ∈ validate_test_coverage d ++ validate_performance_metrics p ++
        validate_security_compliance s,
      ∃ t, thresholdByCheckName r.check_name = some t ∧ SeverityDerived t.critical r := by
  intro r hr
  rw [List.mem_append, List.mem_append] at hr
  rcases hr with (hr | hr) | hr
  · -- validate_test_coverage
    unfold validate_test_coverage at hr
    simp only [List.mem_append, List.mem_singleton, mem_ite_singleton] at hr
    rcases hr with (hr | ⟨_, hr⟩) | ⟨_, hr⟩
    · subst hr
      exact ⟨overall_test_coverage_t, rfl, sevDerived_ge_crit _ _ _ _ _ _⟩
    · subst hr
      exact ⟨critical_path_coverage_t, rfl, sevDerived_ge_crit _ _ _ _ _ _⟩
    · subst hr
      exact ⟨service_layer_coverage_t, rfl, sevDerived_ge_crit _ _ _ _ _ _⟩
  · -- validate_performance_metrics
    unfold validate_performance_metrics at hr
    simp only [List.mem_cons, List.not_mem_nil, or_false] at hr
    rcases hr with hr | hr | hr
    · subst hr
      exact ⟨max_test_execution_time_t, rfl, sevDerived_le_crit _ _ _ _ _ _⟩
    · subst hr
      exact ⟨max_individual_test_time_t, rfl, sevDerived_count_warn _ _ _ _ _⟩
    · subst hr
      exact ⟨memory_leak_threshold_t, rfl, sevDerived_le_crit _ _ _ _ _ _⟩
  · -- validate_security_compliance
    unfold validate_security_compliance at hr
    simp only [List.mem_cons, List.not_mem_nil, or_false] at hr
    rcases hr with hr | hr | hr | hr
    · subst hr
      exact ⟨critical_vulnerabilities_t, rfl, sevDerived_le_crit _ _ _ _ _ _⟩
    · subst hr
      exact ⟨high_vulnerabilities_t, rfl, sevDerived_le_crit _ _ _ _ _ _⟩
    · subst hr
      exact ⟨medium_vulnerabilities_t, rfl, sevDerived_le_warn _ _ _ _ _ _⟩
    · subst hr
      exact ⟨security_test_coverage_t, rfl, sevDerived_ge_crit _ _ _ _ _ _⟩

/-- Concrete coverage data for the C4 witness: 85.5% overall, no files. -/
def covData0 : CoverageData := ⟨0.855, []⟩

/-- Concrete performance data for the C4 witness. -/
def perfData0 : PerformanceData := ⟨12, [], 0⟩

/-- The hard-coded security scan data returned by `run_security_scan`
(lines 449-459): 0 critical, 0 high, 1 medium, 3 low, 96.5% coverage. -/
def secData0 : SecurityData := ⟨⟨0, 0, 1, 3⟩, 96.5⟩

/-- The first result of the security validator on the scan data. -/
def firstSecurityResult : QualityResult :=
  match validate_security_compliance secData0 with
  | r :: _ => r
  | [] => { check_name := "", passed := false, actual_value := none,
            threshold_value := none, message := "", severity := "INFO" }

/-- Witness for C4: the severity invariant instantiated at concrete
validator inputs, for the critical-vulnerabilities check. -/
theorem claim_C4_witness :
    ∃ t, thresholdByCheckName firstSecurityResult.check_name = some t ∧
      SeverityDerived t.critical firstSecurityResult :=
  claim_C4_severity_invariant covData0 perfData0 secData0 firstSecurityResult
    (List.mem_append_right _ (List.mem_cons_self _ _))
